import Mathlib

/-!
# Salon booking app — verification of the resolver layer and booking flow

A shallow embedding of the salon-booking repository's core: the entity
data model, the GraphQL resolver layer (`backend/resolvers.ts`, mirrored
in `src/unnamed/part_004`), the JSON persistence round trip, and the
`toggleService` selection step of the booking wizard (`app/booking.tsx`).

Conventions of the embedding:
* The JSON document on disk is the `Document` structure; `data.bookings`
  may be absent in the file (`!data.bookings` / `data.bookings || []` in
  the source), so it is an `Option (List Booking)`.
* `Date.now()` is an external input, passed as a `now : Nat` parameter;
  the fresh ids `booking-${Date.now()}` and `user-${Date.now()}` become
  string concatenations with `toString now`.
* Mutations in the source read the file, optionally mutate the in-memory
  object and write it back; here each mutation takes the document and
  returns the result together with the document that is on disk after the
  call (unchanged on every failure path, since the source throws or
  returns before `writeData`).
* Simulated latency (`delay`) and `console.log` calls have no effect on
  data and are dropped.
* GraphQL `Float` prices are modelled as `Int`: no claim performs float
  arithmetic, the field is only stored and compared.
-/

/-- Salon entity (schema type `Salon`). -/
structure Salon where
  id : String
  name : String
  address : String
  rating : Int
  specialties : List String
deriving Repr, DecidableEq

/-- Service entity (schema type `Service`). -/
structure Service where
  id : String
  name : String
  price : Int
  salonId : String
deriving Repr, DecidableEq

/-- Staff entity (schema type `Staff`). -/
structure Staff where
  id : String
  name : String
  specialization : String
  photo : String
  salonId : String
deriving Repr, DecidableEq

/-- Schedule entity (schema type `Schedule`). -/
structure Schedule where
  id : String
  time : String
  isAvailable : Bool
deriving Repr, DecidableEq

/-- User entity as persisted (password included, stored in plain text). -/
structure User where
  id : String
  name : String
  phone : String
  email : String
  password : String
deriving Repr, DecidableEq

/-- Booking entity: embeds denormalized snapshots of salon/services/staff. -/
structure Booking where
  id : String
  userId : String
  salon : Salon
  services : List Service
  staff : Staff
  time : String
deriving Repr, DecidableEq

/-- The persisted JSON document (`sampleData.json`): top-level collections.
`bookings` is optional because the seed file may lack the key
(the source guards with `if (!data.bookings) data.bookings = []`). -/
structure Document where
  salons : List Salon
  services : List Service
  staff : List Staff
  schedules : List Schedule
  users : List User
  bookings : Option (List Booking)
deriving Repr, DecidableEq

/-- The password-free user shape returned by `register` and `login`
(`userWithoutPassword` in the source). -/
structure PublicUser where
  id : String
  name : String
  phone : String
  email : String
deriving Repr, DecidableEq

/-- Soft-failure result of `register` and `login` (schema type `AuthResponse`). -/
structure AuthResult where
  success : Bool
  message : String
  user : Option PublicUser
deriving Repr, DecidableEq

/-- Input type `BookingInput` of the GraphQL schema. -/
structure BookingInput where
  userId : String
  salonId : String
  serviceIds : List String
  staffId : String
  time : String
deriving Repr, DecidableEq

/-- Input type `RegisterInput` of the GraphQL schema. -/
structure RegisterInput where
  name : String
  phone : String
  email : String
  password : String
deriving Repr, DecidableEq

/-- Input type `LoginInput` of the GraphQL schema. -/
structure LoginInput where
  email : String
  password : String
deriving Repr, DecidableEq

/-- Resolver `Query.getServices`: `sampleData.services.filter(s => s.salonId === salonId)`. -/
def getServices (d : Document) (salonId : String) : List Service :=
  d.services.filter (fun s => s.salonId == salonId)

/-- Resolver `Query.getStaff`: `sampleData.staff.filter(s => s.salonId === salonId)`. -/
def getStaff (d : Document) (salonId : String) : List Staff :=
  d.staff.filter (fun s => s.salonId == salonId)

/-- Resolver `Query.getStaffSchedules`: the source returns `sampleData.schedules`
unfiltered; the `staffId` argument is bound but never used. -/
def getStaffSchedules (d : Document) (_staffId : String) : List Schedule :=
  d.schedules

/-- Resolver `Query.getBookings`: `(data.bookings || []).filter(b => b.userId === userId)`
on a fresh `readData()`. -/
def getBookings (d : Document) (userId : String) : List Booking :=
  (d.bookings.getD []).filter (fun b => b.userId == userId)

/-- Resolver `Mutation.createBooking`. Resolves `salonId`, `serviceIds`, `staffId`
against the freshly read document; throws `Invalid booking data` when the
salon or staff is not found or no service id matches; otherwise builds a
booking with id `booking-${Date.now()}`, appends it to `data.bookings`
(initializing the array when absent) and writes the document back.
Returns the thrown-or-returned value together with the document on disk
after the call. -/
def createBooking (now : Nat) (input : BookingInput) (d : Document) :
    Except String Booking × Document :=
  let salon? := d.salons.find? (fun s => s.id == input.salonId)
  let services := d.services.filter (fun s => input.serviceIds.contains s.id)
  let staff? := d.staff.find? (fun s => s.id == input.staffId)
  match salon?, staff? with
  | some salon, some staff =>
    if services.isEmpty then
      (Except.error "Invalid booking data", d)
    else
      let booking : Booking :=
        { id := "booking-" ++ toString now
          userId := input.userId
          salon := salon
          services := services
          staff := staff
          time := input.time }
      (Except.ok booking,
       { d with bookings := some (d.bookings.getD [] ++ [booking]) })
  | _, _ => (Except.error "Invalid booking data", d)

/-- Resolver `Mutation.register`. Sequential early-return checks in source order:
existing email, blank field, phone length, email contains `@`, password
length; on success appends a user with id `user-${Date.now()}` and writes
the document back, returning the password-free user.
`email.includes('@')` tests for the single character `@`; it is modelled
on the string's character list (`String.contains_iff` proves this equal to
`String.contains`, which, being defined by well-founded recursion, does
not compute definitionally). -/
def register (now : Nat) (input : RegisterInput) (d : Document) :
    AuthResult × Document :=
  if (d.users.find? (fun u => u.email == input.email)).isSome then
    ({ success := false
       message := "Email already registered. Please login instead."
       user := none }, d)
  else if input.name == "" || input.phone == "" || input.email == "" ||
      input.password == "" then
    ({ success := false, message := "All fields are required", user := none }, d)
  else if input.phone.length < 10 then
    ({ success := false
       message := "Phone number must be at least 10 digits"
       user := none }, d)
  else if !(input.email.data.contains '@') then
    ({ success := false, message := "Invalid email address", user := none }, d)
  else if input.password.length < 6 then
    ({ success := false
       message := "Password must be at least 6 characters"
       user := none }, d)
  else
    let newUser : User :=
      { id := "user-" ++ toString now
        name := input.name
        phone := input.phone
        email := input.email
        password := input.password }
    ({ success := true
       message := "Registration successful! Please login to continue."
       user := some { id := newUser.id, name := newUser.name
                      phone := newUser.phone, email := newUser.email } },
     { d with users := d.users ++ [newUser] })

/-- Resolver `Mutation.login`: finds a user matching email and password exactly;
soft failure with a generic message otherwise; never writes. -/
def login (input : LoginInput) (d : Document) : AuthResult :=
  match d.users.find?
      (fun u => u.email == input.email && u.password == input.password) with
  | none =>
    { success := false, message := "Invalid email or password", user := none }
  | some u =>
    { success := true
      message := "Login successful!"
      user := some { id := u.id, name := u.name, phone := u.phone
                     email := u.email } }

/-- Handler `toggleService` from the `ServiceSelect` step of `app/booking.tsx`:
if a selected service shares the id, remove every service with that id,
otherwise append the service. -/
def toggleService (selected : List Service) (service : Service) :
    List Service :=
  if (selected.find? (fun s => s.id == service.id)).isSome then
    selected.filter (fun s => s.id != service.id)
  else
    selected ++ [service]

/-! ## Shared concrete data for witnesses and counterexamples -/

/-- A concrete salon used by witnesses. -/
def salonA : Salon :=
  { id := "salon-1", name := "Glow", address := "1 Main St", rating := 5
    specialties := ["hair"] }

/-- A concrete service of `salonA`. -/
def svcA : Service :=
  { id := "svc-1", name := "Cut", price := 25, salonId := "salon-1" }

/-- A concrete staff member of `salonA`. -/
def staffA : Staff :=
  { id := "staff-1", name := "Zoe", specialization := "Stylist"
    photo := "http://x/p.png", salonId := "salon-1" }

/-- A concrete user, matching the seeded demo account of the spec scenario. -/
def demoUser : User :=
  { id := "user-demo", name := "Demo", phone := "0123456789"
    email := "demo@salon.com", password := "demo123" }

/-- A document holding the concrete salon, service, staff and demo user. -/
def demoDoc : Document :=
  { salons := [salonA], services := [svcA], staff := [staffA]
    schedules := [{ id := "sch-1", time := "10:00", isAvailable := true }]
    users := [demoUser], bookings := some [] }

/-- Like `demoDoc` but with no users at all. -/
def docNoUsers : Document := { demoDoc with users := [] }

/-- A valid booking request against `demoDoc` / `docNoUsers`. -/
def inputA : BookingInput :=
  { userId := "user-demo", salonId := "salon-1", serviceIds := ["svc-1"]
    staffId := "staff-1", time := "10:00" }

/-! ## Theorems -/

/-- C6: for every `staffId`, `getStaffSchedules` returns the entire
schedule collection of the store, unfiltered and in stored order — the
`staffId` argument has no effect on the result. -/
theorem getStaffSchedules_ignores_staffId (d : Document) (staffId : String) :
    getStaffSchedules d staffId = d.schedules := rfl

/-- C9: toggling the same service twice in the `ServiceSelect` selection
leaves id-membership unchanged: a service id occurs in the selection after
`toggleService service` is applied twice iff it occurred before. -/
theorem toggleService_twice_id_membership (sel : List Service)
    (v : Service) (i : String) :
    (∃ s ∈ toggleService (toggleService sel v) v, s.id = i) ↔
    (∃ s ∈ sel, s.id = i) := by
  by_cases h : (sel.find? (fun s => s.id == v.id)).isSome
  · obtain ⟨w, hw, hwid⟩ := List.find?_isSome.mp h
    have hwid' : w.id = v.id := by simpa using hwid
    have h1 : toggleService sel v = sel.filter (fun s => s.id != v.id) := by
      simp [toggleService, h]
    have h2 : ¬ (((sel.filter (fun s => s.id != v.id)).find?
        (fun s => s.id == v.id)).isSome) := by
      simp only [List.find?_isSome, not_exists]
      intro x hx
      have hne := (List.mem_filter.mp hx.1).2
      simp only [bne_iff_ne, ne_eq] at hne
      exact hne (by simpa using hx.2)
    have h3 : toggleService (toggleService sel v) v
        = sel.filter (fun s => s.id != v.id) ++ [v] := by
      rw [h1, toggleService, if_neg h2]
    rw [h3]
    constructor
    · rintro ⟨s, hs, rfl⟩
      rcases List.mem_append.mp hs with hs | hs
      · exact ⟨s, (List.mem_filter.mp hs).1, rfl⟩
      · have : s = v := by simpa using hs
        subst this
        exact ⟨w, hw, hwid'⟩
    · rintro ⟨s, hs, rfl⟩
      by_cases hid : s.id = v.id
      · refine ⟨v, List.mem_append.mpr (Or.inr (by simp)), ?_⟩
        rw [hid]
      · refine ⟨s, List.mem_append.mpr (Or.inl ?_), rfl⟩
        exact List.mem_filter.mpr ⟨hs, by simp [hid]⟩
  · have hall := List.find?_eq_none.mp (Option.not_isSome_iff_eq_none.mp h)
    have h1 : toggleService sel v = sel ++ [v] := by
      simp [toggleService, h]
    have h2 : (((sel ++ [v]).find? (fun s => s.id == v.id)).isSome) := by
      refine List.find?_isSome.mpr ⟨v, by simp, by simp⟩
    have h3 : toggleService (toggleService sel v) v
        = (sel ++ [v]).filter (fun s => s.id != v.id) := by
      rw [h1, toggleService, if_pos h2]
    have h4 : (sel ++ [v]).filter (fun s => s.id != v.id) = sel := by
      rw [List.filter_append]
      have hself : sel.filter (fun s => s.id != v.id) = sel :=
        List.filter_eq_self.mpr (fun a ha => by
          have := hall a ha
          simpa using this)
      simp [hself]
    rw [h3, h4]

/-- C5: `login` succeeds iff some stored user matches both email and
password exactly; on success the returned user is the password-free
projection of a matching stored user with the success message; on failure
the result is exactly the generic soft failure. -/
theorem login_correct (i : LoginInput) (d : Document) :
    ((login i d).success = true ↔
      ∃ u ∈ d.users, u.email = i.email ∧ u.password = i.password)
  ∧ ((login i d).success = true →
      ∃ u ∈ d.users, u.email = i.email ∧ u.password = i.password ∧
        (login i d).user
          = some { id := u.id, name := u.name, phone := u.phone
                   email := u.email } ∧
        (login i d).message = "Login successful!")
  ∧ ((login i d).success = false →
      login i d = { success := false, message := "Invalid email or password"
                    user := none }) := by
  cases hfind : d.users.find?
      (fun u => u.email == i.email && u.password == i.password) with
  | none =>
    have hnone := List.find?_eq_none.mp hfind
    refine ⟨?_, ?_, ?_⟩
    · simp only [login, hfind]
      constructor
      · intro hfalse
        simp at hfalse
      · rintro ⟨u, hu, he, hp⟩
        exact absurd (by simp [he, hp]) (hnone u hu)
    · intro hsucc
      simp [login, hfind] at hsucc
    · intro _
      simp [login, hfind]
  | some u =>
    have hmem := List.mem_of_find?_eq_some hfind
    have hpred := List.find?_some hfind
    have he : u.email = i.email := by
      have := (Bool.and_eq_true _ _).mp hpred
      simpa using this.1
    have hp : u.password = i.password := by
      have := (Bool.and_eq_true _ _).mp hpred
      simpa using this.2
    refine ⟨?_, ?_, ?_⟩
    · simp only [login, hfind]
      exact ⟨fun _ => ⟨u, hmem, he, hp⟩, fun _ => trivial⟩
    · intro _
      exact ⟨u, hmem, he, hp, by simp [login, hfind], by simp [login, hfind]⟩
    · intro hfail
      simp [login, hfind] at hfail

/-- The success condition of `createBooking`:
`!(!salon || !staff || services.length === 0)` in the source. -/
def bookingValid (i : BookingInput) (d : Document) : Bool :=
  (d.salons.find? (fun s => s.id == i.salonId)).isSome &&
  (d.staff.find? (fun s => s.id == i.staffId)).isSome &&
  !((d.services.filter (fun s => i.serviceIds.contains s.id)).isEmpty)

/-- The booking value `createBooking` constructs in its success branch. -/
def mkBooking (now : Nat) (i : BookingInput) (salon : Salon)
    (staff : Staff) (d : Document) : Booking :=
  { id := "booking-" ++ toString now
    userId := i.userId
    salon := salon
    services := d.services.filter (fun s => i.serviceIds.contains s.id)
    staff := staff
    time := i.time }

/-- Case analysis of `createBooking`: either the request is invalid and the
call returns the error with the document untouched, or the salon and staff
resolve, the service list is non-empty, and the call returns the built
booking together with the document extended by exactly that booking. -/
theorem createBooking_cases (now : Nat) (i : BookingInput) (d : Document) :
    (bookingValid i d = false ∧
      createBooking now i d = (Except.error "Invalid booking data", d)) ∨
    (∃ salon staff,
      d.salons.find? (fun s => s.id == i.salonId) = some salon ∧
      d.staff.find? (fun s => s.id == i.staffId) = some staff ∧
      bookingValid i d = true ∧
      createBooking now i d =
        (Except.ok (mkBooking now i salon staff d),
         { d with
           bookings := some (d.bookings.getD [] ++ [mkBooking now i salon staff d]) })) := by
  cases hsalon : d.salons.find? (fun s => s.id == i.salonId) with
  | none =>
    left
    cases hstaff : d.staff.find? (fun s => s.id == i.staffId) with
    | none => exact ⟨by simp [bookingValid, hsalon], by simp [createBooking, hsalon, hstaff]⟩
    | some staff => exact ⟨by simp [bookingValid, hsalon], by simp [createBooking, hsalon, hstaff]⟩
  | some salon =>
    cases hstaff : d.staff.find? (fun s => s.id == i.staffId) with
    | none =>
      left
      exact ⟨by simp [bookingValid, hstaff], by simp [createBooking, hsalon, hstaff]⟩
    | some staff =>
      cases hemp : (d.services.filter (fun s => i.serviceIds.contains s.id)).isEmpty with
      | true =>
        left
        refine ⟨?_, ?_⟩
        · unfold bookingValid
          rw [hsalon, hstaff, hemp]
          rfl
        · simp only [createBooking, hsalon, hstaff, hemp]
          rfl
      | false =>
        right
        refine ⟨salon, staff, rfl, rfl, ?_, ?_⟩
        · unfold bookingValid
          rw [hsalon, hstaff, hemp]
          rfl
        · simp only [createBooking, hsalon, hstaff, hemp]
          rfl

/-- C1: when the store has no salon with id `salonId`, or no staff with id
`staffId`, or no service whose id is among `serviceIds`, `createBooking`
fails with the `Invalid booking data` error and the persisted document is
unchanged — in particular no booking is appended. -/
theorem createBooking_invalid_unchanged (now : Nat) (i : BookingInput)
    (d : Document)
    (h : (∀ s ∈ d.salons, s.id ≠ i.salonId) ∨
         (∀ s ∈ d.staff, s.id ≠ i.staffId) ∨
         (∀ s ∈ d.services, s.id ∉ i.serviceIds)) :
    (createBooking now i d).1 = Except.error "Invalid booking data" ∧
    (createBooking now i d).2 = d := by
  rcases createBooking_cases now i d with ⟨_, heq⟩ | ⟨salon, staff, hs, hst, hvalid, _⟩
  · rw [heq]
    exact ⟨rfl, rfl⟩
  · exfalso
    rcases h with h | h | h
    · have hmem := List.mem_of_find?_eq_some hs
      have hpred := List.find?_some hs
      exact h salon hmem (by simpa using hpred)
    · have hmem := List.mem_of_find?_eq_some hst
      have hpred := List.find?_some hst
      exact h staff hmem (by simpa using hpred)
    · have hfil : d.services.filter (fun s => i.serviceIds.contains s.id) = [] := by
        refine List.filter_eq_nil_iff.mpr ?_
        intro a ha
        simpa using h a ha
      rw [bookingValid, hfil] at hvalid
      simp at hvalid

/-- C1 witness: booking against an unknown salon id in the concrete demo
document fails and leaves the document unchanged. -/
theorem createBooking_invalid_unchanged_witness :
    (createBooking 3 { inputA with salonId := "no-such-salon" } demoDoc).1
        = Except.error "Invalid booking data" ∧
    (createBooking 3 { inputA with salonId := "no-such-salon" } demoDoc).2
        = demoDoc :=
  createBooking_invalid_unchanged 3 { inputA with salonId := "no-such-salon" }
    demoDoc (Or.inl (by decide))

/-- The outcome of `createBooking` is exactly `bookingValid`. -/
theorem createBooking_isOk (now : Nat) (i : BookingInput) (d : Document) :
    (createBooking now i d).1.isOk = bookingValid i d := by
  rcases createBooking_cases now i d with ⟨hvalid, heq⟩ | ⟨salon, staff, _, _, hvalid, heq⟩
  · rw [heq, hvalid]
    rfl
  · rw [heq, hvalid]
    rfl

/-- Lemma: `bookingValid` only reads the salons, services and staff collections. -/
theorem bookingValid_congr (i : BookingInput) (d d' : Document)
    (h1 : d'.salons = d.salons) (h2 : d'.services = d.services)
    (h3 : d'.staff = d.staff) : bookingValid i d' = bookingValid i d := by
  unfold bookingValid
  rw [h1, h2, h3]

/-- C10 (implicit frame condition): `createBooking` — succeeding or
failing — leaves the salons, services, staff, schedules and users
collections of the persisted document unchanged; its outcome is
insensitive to the `time` argument and to the schedules collection (no
availability check, no `isAvailable` update); and repeating the request on
the document a call produced (any timestamp, any time string) has the very
same outcome, so one slot can be booked any number of times. -/
theorem createBooking_frame (now : Nat) (i : BookingInput) (d : Document) :
    ((createBooking now i d).2.salons = d.salons ∧
     (createBooking now i d).2.services = d.services ∧
     (createBooking now i d).2.staff = d.staff ∧
     (createBooking now i d).2.schedules = d.schedules ∧
     (createBooking now i d).2.users = d.users)
  ∧ (∀ t sch,
      (createBooking now { i with time := t }
          { d with schedules := sch }).1.isOk
        = (createBooking now i d).1.isOk)
  ∧ (∀ now2 t2,
      (createBooking now2 { i with time := t2 }
          (createBooking now i d).2).1.isOk
        = (createBooking now i d).1.isOk) := by
  have hframe : (createBooking now i d).2.salons = d.salons ∧
      (createBooking now i d).2.services = d.services ∧
      (createBooking now i d).2.staff = d.staff ∧
      (createBooking now i d).2.schedules = d.schedules ∧
      (createBooking now i d).2.users = d.users := by
    rcases createBooking_cases now i d with ⟨_, heq⟩ | ⟨salon, staff, _, _, _, heq⟩ <;>
      rw [heq] <;> exact ⟨rfl, rfl, rfl, rfl, rfl⟩
  refine ⟨hframe, ?_, ?_⟩
  · intro t sch
    rw [createBooking_isOk, createBooking_isOk]
    exact bookingValid_congr { i with time := t } d { d with schedules := sch }
      rfl rfl rfl
  · intro now2 t2
    rw [createBooking_isOk, createBooking_isOk]
    exact bookingValid_congr { i with time := t2 } d (createBooking now i d).2
      hframe.1 hframe.2.1 hframe.2.2.1

/-- C7 counterexample: with an empty users collection, `createBooking`
still succeeds for the unknown user id `ghost` and persists a booking
whose `userId` references no stored user. -/
theorem createBooking_ghost_user_cex :
    docNoUsers.users = []
  ∧ (createBooking 1 { inputA with userId := "ghost" } docNoUsers).1.isOk = true
  ∧ (getBookings (createBooking 1 { inputA with userId := "ghost" } docNoUsers).2
        "ghost").length = 1 := by
  refine ⟨rfl, rfl, rfl⟩

/-- C7 amended: `createBooking` performs no validation of `userId`: its
outcome does not depend on the users collection at all, and a successful
call builds a booking whose `userId` is the argument verbatim — it
references an existing user only when the caller already passed such an
id. -/
theorem createBooking_userId_unchecked (now : Nat) (i : BookingInput)
    (d : Document) :
    (∀ us, (createBooking now i { d with users := us }).1.isOk
        = (createBooking now i d).1.isOk)
  ∧ (∀ b, (createBooking now i d).1 = Except.ok b → b.userId = i.userId) := by
  constructor
  · intro us
    rw [createBooking_isOk, createBooking_isOk]
    exact bookingValid_congr i d { d with users := us } rfl rfl rfl
  · intro b hb
    rcases createBooking_cases now i d with ⟨_, heq⟩ | ⟨salon, staff, _, _, _, heq⟩
    · rw [heq] at hb
      simp at hb
    · rw [heq] at hb
      have hbe : b = mkBooking now i salon staff d := by
        simpa using hb.symm
      rw [hbe]
      rfl

/-- C7 amended witness: instantiated at the ghost-user request against the
user-less concrete document. -/
theorem createBooking_userId_unchecked_witness :
    (createBooking 1 { inputA with userId := "ghost" }
        { docNoUsers with users := [] }).1.isOk
      = (createBooking 1 { inputA with userId := "ghost" } docNoUsers).1.isOk
  ∧ (mkBooking 1 { inputA with userId := "ghost" } salonA staffA
        docNoUsers).userId = "ghost" :=
  ⟨(createBooking_userId_unchecked 1 { inputA with userId := "ghost" }
      docNoUsers).1 [],
   (createBooking_userId_unchecked 1 { inputA with userId := "ghost" }
      docNoUsers).2
      (mkBooking 1 { inputA with userId := "ghost" } salonA staffA docNoUsers)
      rfl⟩

/-- A booking already stored with the timestamp-shaped id `booking-7`. -/
def oldBooking : Booking :=
  { id := "booking-7", userId := "user-demo", salon := salonA
    services := [svcA], staff := staffA, time := "09:00" }

/-- The document `demoDoc` with `oldBooking` already persisted. -/
def docWithOld : Document := { demoDoc with bookings := some [oldBooking] }

/-- C3 counterexample: if `Date.now()` yields 7 while a booking with id
`booking-7` is already stored, `createBooking` succeeds and the created
booking's id equals the prior booking's id — it is not distinct from every
id already in the store. -/
theorem createBooking_id_not_unique_cex :
    (createBooking 7 inputA docWithOld).1
        = Except.ok (mkBooking 7 inputA salonA staffA docWithOld)
  ∧ (mkBooking 7 inputA salonA staffA docWithOld).id = "booking-7"
  ∧ oldBooking ∈ docWithOld.bookings.getD []
  ∧ oldBooking.id = "booking-7" := by
  refine ⟨rfl, rfl, ?_, rfl⟩
  simp [docWithOld, demoDoc]

/-- C3 amended: after a successful `createBooking`, `getBookings` for the
booked user on the resulting store includes a booking whose userId, salon,
staff, services and time equal the resolved inputs, and whose id is
`booking-` followed by the timestamp; that id is distinct from every prior
booking's id provided it does not already occur among them (the code
performs no uniqueness check, so a seeded or same-millisecond id can
collide). -/
theorem createBooking_roundtrip (now : Nat) (i : BookingInput)
    (d : Document) (b : Booking)
    (hb : (createBooking now i d).1 = Except.ok b) :
    b ∈ getBookings (createBooking now i d).2 i.userId
  ∧ b.userId = i.userId
  ∧ b.time = i.time
  ∧ d.salons.find? (fun s => s.id == i.salonId) = some b.salon
  ∧ d.staff.find? (fun s => s.id == i.staffId) = some b.staff
  ∧ b.services = d.services.filter (fun s => i.serviceIds.contains s.id)
  ∧ b.id = "booking-" ++ toString now
  ∧ (("booking-" ++ toString now) ∉ (d.bookings.getD []).map Booking.id →
      ∀ b0 ∈ d.bookings.getD [], b.id ≠ b0.id) := by
  rcases createBooking_cases now i d with ⟨_, heq⟩ | ⟨salon, staff, hs, hst, _, heq⟩
  · rw [heq] at hb
    simp at hb
  · rw [heq] at hb
    have hbe : b = mkBooking now i salon staff d := by
      simpa using hb.symm
    subst hbe
    refine ⟨?_, rfl, rfl, ?_, ?_, rfl, rfl, ?_⟩
    · rw [heq]
      unfold getBookings
      refine List.mem_filter.mpr ⟨?_, by simp [mkBooking]⟩
      simp
    · rw [hs]
      rfl
    · rw [hst]
      rfl
    · intro hnotin b0 hb0 heqid
      have hmm : b0.id ∈ (d.bookings.getD []).map Booking.id :=
        List.mem_map_of_mem Booking.id hb0
      rw [← heqid] at hmm
      exact hnotin hmm

/-- C3 amended witness: a concrete successful booking against `demoDoc` is
returned by `getBookings` on the written-back store. -/
theorem createBooking_roundtrip_witness :
    mkBooking 1 inputA salonA staffA demoDoc
      ∈ getBookings (createBooking 1 inputA demoDoc).2 inputA.userId
  ∧ (mkBooking 1 inputA salonA staffA demoDoc).id = "booking-1" :=
  ⟨(createBooking_roundtrip 1 inputA demoDoc
      (mkBooking 1 inputA salonA staffA demoDoc) rfl).1,
   rfl⟩

/-- C2: `register` runs its checks in the fixed source order — existing
email, then any blank field, then phone shorter than 10, then email
without `@`, then password shorter than 6 — and returns `success:false`
with the message of the first failing check; later checks are never
reached. -/
theorem register_validation_order (now : Nat) (i : RegisterInput)
    (d : Document) :
    ((d.users.find? (fun u => u.email == i.email)).isSome = true →
      (register now i d).1
        = { success := false
            message := "Email already registered. Please login instead."
            user := none })
  ∧ ((d.users.find? (fun u => u.email == i.email)).isSome = false →
      (i.name = "" ∨ i.phone = "" ∨ i.email = "" ∨ i.password = "") →
      (register now i d).1
        = { success := false, message := "All fields are required"
            user := none })
  ∧ ((d.users.find? (fun u => u.email == i.email)).isSome = false →
      i.name ≠ "" → i.phone ≠ "" → i.email ≠ "" → i.password ≠ "" →
      i.phone.length < 10 →
      (register now i d).1
        = { success := false
            message := "Phone number must be at least 10 digits"
            user := none })
  ∧ ((d.users.find? (fun u => u.email == i.email)).isSome = false →
      i.name ≠ "" → i.phone ≠ "" → i.email ≠ "" → i.password ≠ "" →
      ¬ i.phone.length < 10 → ¬ i.email.data.contains '@' →
      (register now i d).1
        = { success := false, message := "Invalid email address"
            user := none })
  ∧ ((d.users.find? (fun u => u.email == i.email)).isSome = false →
      i.name ≠ "" → i.phone ≠ "" → i.email ≠ "" → i.password ≠ "" →
      ¬ i.phone.length < 10 → i.email.data.contains '@' →
      i.password.length < 6 →
      (register now i d).1
        = { success := false
            message := "Password must be at least 6 characters"
            user := none }) := by
  refine ⟨?_, ?_, ?_, ?_, ?_⟩
  · intro h1
    simp [register, h1]
  · intro h1 hblank
    unfold register
    rw [h1]
    rcases hblank with hb | hb | hb | hb <;> simp [hb]
  · intro h1 hn hp he hpw hph
    simp [register, h1, hn, hp, he, hpw, hph]
  · intro h1 hn hp he hpw hph hat
    simp at hat
    simp [register, h1, hn, hp, he, hpw, hph, hat]
  · intro h1 hn hp he hpw hph hat hpl
    simp at hat
    simp [register, h1, hn, hp, he, hpw, hph, hat, hpl]

/-- C2 witness: the five first-failing-check messages at concrete inputs,
including the spec's scenario `register("", "123", "bad", "ab")` against a
store that does not know the email `bad`. -/
theorem register_validation_order_witness :
    ((register 9 { name := "X", phone := "0123456789"
                   email := "demo@salon.com", password := "secret1" }
        demoDoc).1
      = { success := false
          message := "Email already registered. Please login instead."
          user := none })
  ∧ ((register 9 { name := "", phone := "123", email := "bad"
                   password := "ab" } demoDoc).1
      = { success := false, message := "All fields are required"
          user := none })
  ∧ ((register 9 { name := "A", phone := "123", email := "a@b.cd"
                   password := "secret1" } demoDoc).1
      = { success := false
          message := "Phone number must be at least 10 digits"
          user := none })
  ∧ ((register 9 { name := "A", phone := "0123456789", email := "bad"
                   password := "secret1" } demoDoc).1
      = { success := false, message := "Invalid email address"
          user := none })
  ∧ ((register 9 { name := "A", phone := "0123456789", email := "a@b.cd"
                   password := "ab" } demoDoc).1
      = { success := false
          message := "Password must be at least 6 characters"
          user := none }) :=
  ⟨(register_validation_order 9 _ demoDoc).1 (by decide),
   (register_validation_order 9 _ demoDoc).2.1 (by decide) (Or.inl rfl),
   (register_validation_order 9 _ demoDoc).2.2.1 (by decide) (by decide)
     (by decide) (by decide) (by decide) (by decide),
   (register_validation_order 9 _ demoDoc).2.2.2.1 (by decide) (by decide)
     (by decide) (by decide) (by decide) (by decide) (by decide),
   (register_validation_order 9 _ demoDoc).2.2.2.2 (by decide) (by decide)
     (by decide) (by decide) (by decide) (by decide) (by decide) (by decide)⟩

/-- When `register` succeeds, no stored user had the email and the written
document is the input document with exactly the new user appended. -/
theorem register_success_shape (now : Nat) (i : RegisterInput)
    (d : Document) (hs : ((register now i d).1).success = true) :
    (d.users.find? (fun u => u.email == i.email)).isSome = false
  ∧ (register now i d).2
      = { d with users := d.users ++
            [{ id := "user-" ++ toString now, name := i.name
               phone := i.phone, email := i.email
               password := i.password }] } := by
  by_cases h1 : (d.users.find? (fun u => u.email == i.email)).isSome
  · exfalso
    simp [register, h1] at hs
  · refine ⟨by simpa using h1, ?_⟩
    by_cases h2 : (i.name == "" || i.phone == "" || i.email == ""
        || i.password == "") = true
    · exfalso
      simp only [register, h1, h2] at hs
      simp at hs
    · by_cases h3 : i.phone.length < 10
      · exfalso
        simp [register, h1, h2, h3] at hs
      · by_cases h4 : '@' ∈ i.email.data
        · by_cases h5 : i.password.length < 6
          · exfalso
            simp [register, h1, h2, h3, h4, h5] at hs
          · simp [register, h1, h2, h3, h4, h5]
        · exfalso
          simp [register, h1, h2, h3, h4] at hs

/-- C4: when a `register` call succeeds, a second `register` with the same
email (any other fields, any timestamp) fails with the already-registered
message, returns no user, and leaves the persisted document — in
particular the users collection — exactly as it was after the first
call. -/
theorem register_email_unique (n1 n2 : Nat) (i1 i2 : RegisterInput)
    (d : Document) (hs : ((register n1 i1 d).1).success = true)
    (he : i2.email = i1.email) :
    ((register n2 i2 (register n1 i1 d).2).1).success = false
  ∧ ((register n2 i2 (register n1 i1 d).2).1).message
      = "Email already registered. Please login instead."
  ∧ ((register n2 i2 (register n1 i1 d).2).1).user = none
  ∧ (register n2 i2 (register n1 i1 d).2).2 = (register n1 i1 d).2 := by
  obtain ⟨-, hshape⟩ := register_success_shape n1 i1 d hs
  rw [hshape]
  refine ⟨?_, ?_, ?_, ?_⟩ <;> simp [register, he]

/-- C4 witness: a concrete fresh registration against `demoDoc` succeeds,
and the identical-email retry fails with the already-registered message
and an untouched document. -/
theorem register_email_unique_witness :
    ((register 2 { name := "B", phone := "9876543210", email := "a@b.cd"
                   password := "secret2" }
        (register 1 { name := "A", phone := "0123456789", email := "a@b.cd"
                      password := "secret1" } demoDoc).2).1).success = false
  ∧ (register 2 { name := "B", phone := "9876543210", email := "a@b.cd"
                  password := "secret2" }
      (register 1 { name := "A", phone := "0123456789", email := "a@b.cd"
                    password := "secret1" } demoDoc).2).2
      = (register 1 { name := "A", phone := "0123456789", email := "a@b.cd"
                      password := "secret1" } demoDoc).2 := by
  have h := register_email_unique 1 2
    { name := "A", phone := "0123456789", email := "a@b.cd"
      password := "secret1" }
    { name := "B", phone := "9876543210", email := "a@b.cd"
      password := "secret2" } demoDoc (by decide) rfl
  exact ⟨h.1, h.2.2.2⟩

/-- Modelled from the spec: the Data Store file layer. `JSON.stringify`,
`JSON.parse` and the `fs` read/write calls used by `readData`/`writeData`
are platform builtins, not code of this repository; per spec section 4.1
the write serializes the full document and the read deserializes it fresh,
so the string layer is modelled as the identity on the JSON tree and the
file content is the tree itself. -/
inductive Json where
  | null : Json
  | bool : Bool → Json
  | num : Int → Json
  | str : String → Json
  | arr : List Json → Json
  | obj : List (String × Json) → Json
deriving Repr

/-- JSON shape of a persisted `Salon`. -/
def encodeSalon (s : Salon) : Json :=
  Json.obj [("id", Json.str s.id), ("name", Json.str s.name),
            ("address", Json.str s.address), ("rating", Json.num s.rating),
            ("specialties", Json.arr (s.specialties.map Json.str))]

/-- JSON shape of a persisted `Service`. -/
def encodeService (s : Service) : Json :=
  Json.obj [("id", Json.str s.id), ("name", Json.str s.name),
            ("price", Json.num s.price), ("salonId", Json.str s.salonId)]

/-- JSON shape of a persisted `Staff`. -/
def encodeStaff (s : Staff) : Json :=
  Json.obj [("id", Json.str s.id), ("name", Json.str s.name),
            ("specialization", Json.str s.specialization),
            ("photo", Json.str s.photo), ("salonId", Json.str s.salonId)]

/-- JSON shape of a persisted `Schedule`. -/
def encodeSchedule (s : Schedule) : Json :=
  Json.obj [("id", Json.str s.id), ("time", Json.str s.time),
            ("isAvailable", Json.bool s.isAvailable)]

/-- JSON shape of a persisted `User` (plain-text password included). -/
def encodeUser (u : User) : Json :=
  Json.obj [("id", Json.str u.id), ("name", Json.str u.name),
            ("phone", Json.str u.phone), ("email", Json.str u.email),
            ("password", Json.str u.password)]

/-- JSON shape of a persisted `Booking` (embedded snapshots). -/
def encodeBooking (b : Booking) : Json :=
  Json.obj [("id", Json.str b.id), ("userId", Json.str b.userId),
            ("salon", encodeSalon b.salon),
            ("services", Json.arr (b.services.map encodeService)),
            ("staff", encodeStaff b.staff), ("time", Json.str b.time)]

/-- Reads a string list back from a JSON array of strings. -/
def decodeStringList : List Json → Option (List String)
  | [] => some []
  | Json.str s :: rest => (decodeStringList rest).map (fun l => s :: l)
  | _ => none

/-- Reads a list of entities back from a JSON array. -/
def decodeList {α : Type} (f : Json → Option α) : List Json → Option (List α)
  | [] => some []
  | j :: rest =>
    match f j, decodeList f rest with
    | some a, some l => some (a :: l)
    | _, _ => none

/-- Reads a `Salon` back from its JSON shape. -/
def decodeSalon : Json → Option Salon
  | Json.obj [(k1, Json.str id), (k2, Json.str name), (k3, Json.str address),
              (k4, Json.num rating), (k5, Json.arr sp)] =>
    if k1 == "id" && k2 == "name" && k3 == "address" && k4 == "rating" &&
        k5 == "specialties" then
      (decodeStringList sp).map (fun specialties =>
        { id := id, name := name, address := address, rating := rating
          specialties := specialties })
    else none
  | _ => none

/-- Reads a `Service` back from its JSON shape. -/
def decodeService : Json → Option Service
  | Json.obj [(k1, Json.str id), (k2, Json.str name), (k3, Json.num price),
              (k4, Json.str salonId)] =>
    if k1 == "id" && k2 == "name" && k3 == "price" && k4 == "salonId" then
      some { id := id, name := name, price := price, salonId := salonId }
    else none
  | _ => none

/-- Reads a `Staff` back from its JSON shape. -/
def decodeStaff : Json → Option Staff
  | Json.obj [(k1, Json.str id), (k2, Json.str name),
              (k3, Json.str specialization), (k4, Json.str photo),
              (k5, Json.str salonId)] =>
    if k1 == "id" && k2 == "name" && k3 == "specialization" &&
        k4 == "photo" && k5 == "salonId" then
      some { id := id, name := name, specialization := specialization
             photo := photo, salonId := salonId }
    else none
  | _ => none

/-- Reads a `Schedule` back from its JSON shape. -/
def decodeSchedule : Json → Option Schedule
  | Json.obj [(k1, Json.str id), (k2, Json.str time),
              (k3, Json.bool isAvailable)] =>
    if k1 == "id" && k2 == "time" && k3 == "isAvailable" then
      some { id := id, time := time, isAvailable := isAvailable }
    else none
  | _ => none

/-- Reads a `User` back from its JSON shape. -/
def decodeUser : Json → Option User
  | Json.obj [(k1, Json.str id), (k2, Json.str name), (k3, Json.str phone),
              (k4, Json.str email), (k5, Json.str password)] =>
    if k1 == "id" && k2 == "name" && k3 == "phone" && k4 == "email" &&
        k5 == "password" then
      some { id := id, name := name, phone := phone, email := email
             password := password }
    else none
  | _ => none

/-- Reads a `Booking` back from its JSON shape. -/
def decodeBooking : Json → Option Booking
  | Json.obj [(k1, Json.str id), (k2, Json.str userId), (k3, jsalon),
              (k4, Json.arr jservices), (k5, jstaff), (k6, Json.str time)] =>
    if k1 == "id" && k2 == "userId" && k3 == "salon" && k4 == "services" &&
        k5 == "staff" && k6 == "time" then
      match decodeSalon jsalon, decodeList decodeService jservices,
          decodeStaff jstaff with
      | some salon, some services, some staff =>
        some { id := id, userId := userId, salon := salon
               services := services, staff := staff, time := time }
      | _, _, _ => none
    else none
  | _ => none

/-- JSON shape of the whole persisted document; when `bookings` is absent
(`undefined` in the source) `JSON.stringify` omits the key. -/
def encodeDocument (d : Document) : Json :=
  Json.obj
    ([("salons", Json.arr (d.salons.map encodeSalon)),
      ("services", Json.arr (d.services.map encodeService)),
      ("staff", Json.arr (d.staff.map encodeStaff)),
      ("schedules", Json.arr (d.schedules.map encodeSchedule)),
      ("users", Json.arr (d.users.map encodeUser))] ++
     (match d.bookings with
      | none => []
      | some bs => [("bookings", Json.arr (bs.map encodeBooking))]))

/-- Reads the whole document back from its JSON tree (with or without the
optional `bookings` key). -/
def decodeDocument : Json → Option Document
  | Json.obj [(k1, Json.arr jsal), (k2, Json.arr jsvc), (k3, Json.arr jstf),
              (k4, Json.arr jsch), (k5, Json.arr jusr)] =>
    if k1 == "salons" && k2 == "services" && k3 == "staff" &&
        k4 == "schedules" && k5 == "users" then
      match decodeList decodeSalon jsal, decodeList decodeService jsvc,
          decodeList decodeStaff jstf, decodeList decodeSchedule jsch,
          decodeList decodeUser jusr with
      | some salons, some services, some staff, some schedules, some users =>
        some { salons := salons, services := services, staff := staff
               schedules := schedules, users := users, bookings := none }
      | _, _, _, _, _ => none
    else none
  | Json.obj [(k1, Json.arr jsal), (k2, Json.arr jsvc), (k3, Json.arr jstf),
              (k4, Json.arr jsch), (k5, Json.arr jusr), (k6, Json.arr jbk)] =>
    if k1 == "salons" && k2 == "services" && k3 == "staff" &&
        k4 == "schedules" && k5 == "users" && k6 == "bookings" then
      match decodeList decodeSalon jsal, decodeList decodeService jsvc,
          decodeList decodeStaff jstf, decodeList decodeSchedule jsch,
          decodeList decodeUser jusr, decodeList decodeBooking jbk with
      | some salons, some services, some staff, some schedules, some users,
          some bookings =>
        some { salons := salons, services := services, staff := staff
               schedules := schedules, users := users
               bookings := some bookings }
      | _, _, _, _, _, _ => none
    else none
  | _ => none

/-- Source `writeData`: serializes the full document, overwriting the
file; the resulting file content, as a JSON tree. -/
def writeData (d : Document) : Json := encodeDocument d

/-- Source `readData`: reads the file fresh and parses it; the document
view of the file's JSON tree. -/
def readData (file : Json) : Option Document := decodeDocument file

theorem decodeStringList_map (l : List String) :
    decodeStringList (l.map Json.str) = some l := by
  induction l with
  | nil => rfl
  | cons a l ih => simp [decodeStringList, ih]

theorem decodeList_map {α : Type} (f : Json → Option α) (g : α → Json)
    (hfg : ∀ a, f (g a) = some a) (l : List α) :
    decodeList f (l.map g) = some l := by
  induction l with
  | nil => rfl
  | cons a l ih => simp [decodeList, hfg, ih]

theorem decodeSalon_encode (s : Salon) :
    decodeSalon (encodeSalon s) = some s := by
  simp [encodeSalon, decodeSalon, decodeStringList_map]

theorem decodeService_encode (s : Service) :
    decodeService (encodeService s) = some s := by
  simp [encodeService, decodeService]

theorem decodeStaff_encode (s : Staff) :
    decodeStaff (encodeStaff s) = some s := by
  simp [encodeStaff, decodeStaff]

theorem decodeSchedule_encode (s : Schedule) :
    decodeSchedule (encodeSchedule s) = some s := by
  simp [encodeSchedule, decodeSchedule]

theorem decodeUser_encode (u : User) :
    decodeUser (encodeUser u) = some u := by
  simp [encodeUser, decodeUser]

theorem decodeBooking_encode (b : Booking) :
    decodeBooking (encodeBooking b) = some b := by
  simp [encodeBooking, decodeBooking, decodeSalon_encode, decodeStaff_encode,
        decodeList_map decodeService encodeService decodeService_encode]

/-- C8: the Data Store round-trip property — writing any document and
reading it back yields the document unchanged (serialization followed by
deserialization is the identity). -/
theorem writeData_readData_roundtrip (d : Document) :
    readData (writeData d) = some d := by
  obtain ⟨sal, svc, stf, sch, usr, bk⟩ := d
  cases bk with
  | none =>
    simp [writeData, readData, encodeDocument, decodeDocument,
          decodeList_map decodeSalon encodeSalon decodeSalon_encode,
          decodeList_map decodeService encodeService decodeService_encode,
          decodeList_map decodeStaff encodeStaff decodeStaff_encode,
          decodeList_map decodeSchedule encodeSchedule decodeSchedule_encode,
          decodeList_map decodeUser encodeUser decodeUser_encode]
  | some bs =>
    simp [writeData, readData, encodeDocument, decodeDocument,
          decodeList_map decodeSalon encodeSalon decodeSalon_encode,
          decodeList_map decodeService encodeService decodeService_encode,
          decodeList_map decodeStaff encodeStaff decodeStaff_encode,
          decodeList_map decodeSchedule encodeSchedule decodeSchedule_encode,
          decodeList_map decodeUser encodeUser decodeUser_encode,
          decodeList_map decodeBooking encodeBooking decodeBooking_encode]

/-- C5 witness: the spec's seeded demo account — correct password logs in,
a wrong password yields exactly the generic soft failure. -/
theorem login_correct_witness :
    (login { email := "demo@salon.com", password := "demo123" }
        demoDoc).success = true
  ∧ login { email := "demo@salon.com", password := "wrong" } demoDoc
      = { success := false, message := "Invalid email or password"
          user := none } :=
  ⟨(login_correct { email := "demo@salon.com", password := "demo123" }
      demoDoc).1.mpr ⟨demoUser, by decide, by decide, by decide⟩,
   (login_correct { email := "demo@salon.com", password := "wrong" }
      demoDoc).2.2 (by decide)⟩
